import Mathlib

/-!
Shallow embedding of `src/sensors/get_data.py` (class `PhyphoxSensorReader`,
the export step of `main`, and the polling loop `collect_data`).

Modelling conventions:
* JSON values decoded by `response.json()` are modelled by `JValue`
  (null / bool / number / string / array / object); numbers are carried as `Rat`.
* Python operations that can raise are modelled in `Except Unit`:
  `x.get(k, d)` is defined only on dicts (`AttributeError` otherwise),
  `len` only on arrays / strings / objects, indexing with the int `0` only on
  nonempty arrays and strings (`0` is a missing key for a dict).
* `np.array([a, b, c])` is modelled as plain tupling of the three values
  (no failure, no coercion), `datetime.now()` as an external `now : Nat`
  parameter, `time.sleep(d)` as recording the duration `d`, and each
  error `print` as one recoverable-error notification.
* The `deque(maxlen=C)` buffer is a `List` kept at its last `C` elements,
  oldest first; `queue.Queue` is a `List`, front = oldest.
-/

inductive JValue where
  | jnull : JValue
  | jbool : Bool → JValue
  | jnum : Rat → JValue
  | jstr : String → JValue
  | jarr : List JValue → JValue
  | jobj : List (String × JValue) → JValue

namespace JValue

/-- First value bound to `k` in an object's field list (Python dict keys are
unique, so first match is the dict lookup). -/
def fieldsLookup (kvs : List (String × JValue)) (k : String) : Option JValue :=
  match kvs with
  | [] => none
  | (k', v) :: rest => if k' = k then some v else fieldsLookup rest k

/-- Python `x.get(k, d)`: defined on dicts only; any other receiver raises
`AttributeError`. -/
def pyGet (x : JValue) (k : String) (d : JValue) : Except Unit JValue :=
  match x with
  | jobj kvs => .ok ((fieldsLookup kvs k).getD d)
  | _ => .error ()

/-- Python `len(x)`: defined on sequences and mappings, raises otherwise. -/
def pyLen (x : JValue) : Except Unit Nat :=
  match x with
  | jarr xs => .ok xs.length
  | jstr s => .ok s.length
  | jobj kvs => .ok kvs.length
  | _ => .error ()

/-- Python `x[0]` (the int key `0`): head of a nonempty list, first character
of a nonempty string; a `KeyError` on a dict (string keys only, from JSON),
a `TypeError` elsewhere.  Only reached when `len x > 0`. -/
def pyIndexZero (x : JValue) : Except Unit JValue :=
  match x with
  | jarr (v :: _) => .ok v
  | jstr s =>
      match s.data with
      | c :: _ => .ok (jstr (String.mk [c]))
      | [] => .error ()
  | _ => .error ()

end JValue

open JValue

/-- The sixteen channel names requested from phyphox
(`PhyphoxSensorReader.sensor_types`). -/
def sensor_types : List String :=
  ["gyroX", "gyroY", "gyroZ", "gyro_time",
   "accX", "accY", "accZ", "acc_time",
   "graX", "graY", "graZ", "graT",
   "lin_accX", "lin_accY", "lin_accZ", "lin_acc_time"]

/-- `raw_data.get('buffer', {}).get(buffer_name, {}).get('buffer', [])`:
the chain of lookups of `safe_extract` before length test / indexing. -/
def channelBuffer (raw : JValue) (name : String) : Except Unit JValue := do
  let b ← raw.pyGet "buffer" (jobj [])
  let ch ← b.pyGet name (jobj [])
  ch.pyGet "buffer" (jarr [])

/-- `safe_extract(buffer_name, index=0)` from `parse_sensor_data`
(always called with `index = 0`):
`buffer_data[0] if len(buffer_data) > 0 else 0.0`. -/
def safe_extract (raw : JValue) (name : String) : Except Unit JValue := do
  let bd ← channelBuffer raw name
  let n ← bd.pyLen
  if 0 < n then bd.pyIndexZero else .ok (jnum 0)

/-- One `{'data': np.array([x, y, z]), 'time': t}` group of a parsed record. -/
structure ChannelGroup where
  x : JValue
  y : JValue
  z : JValue
  time : JValue

/-- The dict returned by `parse_sensor_data` on success. -/
structure SensorSnapshot where
  timestamp : Nat
  gravity : ChannelGroup
  linear_acceleration : ChannelGroup
  acceleration : ChannelGroup
  gyroscope : ChannelGroup

/-- Body of the `try:` block of `parse_sensor_data`, extraction in source
order; any raised exception is `.error ()`. -/
def parse_body (now : Nat) (raw : JValue) : Except Unit SensorSnapshot := do
  let graX ← safe_extract raw "graX"
  let graY ← safe_extract raw "graY"
  let graZ ← safe_extract raw "graZ"
  let graT ← safe_extract raw "graT"
  let linX ← safe_extract raw "lin_accX"
  let linY ← safe_extract raw "lin_accY"
  let linZ ← safe_extract raw "lin_accZ"
  let linT ← safe_extract raw "lin_acc_time"
  let accX ← safe_extract raw "accX"
  let accY ← safe_extract raw "accY"
  let accZ ← safe_extract raw "accZ"
  let accT ← safe_extract raw "acc_time"
  let gyrX ← safe_extract raw "gyroX"
  let gyrY ← safe_extract raw "gyroY"
  let gyrZ ← safe_extract raw "gyroZ"
  let gyrT ← safe_extract raw "gyro_time"
  .ok { timestamp := now
        gravity := ⟨graX, graY, graZ, graT⟩
        linear_acceleration := ⟨linX, linY, linZ, linT⟩
        acceleration := ⟨accX, accY, accZ, accT⟩
        gyroscope := ⟨gyrX, gyrY, gyrZ, gyrT⟩ }

/-- `parse_sensor_data`: the `except Exception` handler turns any fault into
the failure marker `None`. -/
def parse_sensor_data (now : Nat) (raw : JValue) : Option SensorSnapshot :=
  (parse_body now raw).toOption

/-! ## Rolling buffer (`deque(maxlen=max_buffer_size)`) and its reads -/

/-- The last `C` elements of a list (all of it when it is shorter):
the contents of a `deque(maxlen=C)` after appending `l` elementwise. -/
def takeLast (C : Nat) (l : List SensorSnapshot) : List SensorSnapshot :=
  l.drop (l.length - C)

/-- `self.data_buffer.append(s)` on a `deque(maxlen=C)`: append, evicting
from the left down to `C` elements. -/
def pushBuffer (C : Nat) (buf : List SensorSnapshot) (s : SensorSnapshot) :
    List SensorSnapshot :=
  takeLast C (buf ++ [s])

/-- `get_latest_data`: `self.data_buffer[-1] if self.data_buffer else None`. -/
def get_latest_data (buf : List SensorSnapshot) : Option SensorSnapshot :=
  buf.getLast?

/-- Python `lst[-count:]` for a nonnegative int `count`:
note `lst[-0:] = lst[0:] = lst`. -/
def pyTailSlice (l : List SensorSnapshot) (count : Nat) : List SensorSnapshot :=
  if count = 0 then l else l.drop (l.length - count)

/-- `get_data_history(count=None)`: the whole buffer for `None`,
`list(self.data_buffer)[-count:]` otherwise. -/
def get_data_history (buf : List SensorSnapshot) (count : Option Nat) :
    List SensorSnapshot :=
  match count with
  | none => buf
  | some c => pyTailSlice buf c

/-! ## Collection state (`is_running` flag and the collection thread) -/

/-- The control state of `PhyphoxSensorReader`: the `is_running` flag plus a
count of polling threads spawned so far (each `threading.Thread(...).start()`
increments it). -/
structure ReaderState where
  is_running : Bool
  spawn_count : Nat

/-- State after `__init__`: not running, no thread spawned. -/
def initReaderState : ReaderState := { is_running := false, spawn_count := 0 }

/-- `start_collection`: guarded by `if not self.is_running`; sets the flag and
spawns a fresh polling thread. -/
def start_collection (st : ReaderState) : ReaderState :=
  if st.is_running then st
  else { is_running := true, spawn_count := st.spawn_count + 1 }

/-- `stop_collection`: clears the flag (and joins the thread, which changes no
modelled state). -/
def stop_collection (st : ReaderState) : ReaderState :=
  { st with is_running := false }

/-! ## One iteration of `collect_data` -/

/-- Outcome of `requests.get` + `raise_for_status` + `response.json()`:
either a `requests.exceptions.RequestException` (timeout, connection error,
non-2xx) or a decoded JSON body. -/
inductive FetchResult where
  | transportError : FetchResult
  | ok : JValue → FetchResult

/-- A value `v` such that `f"{v:6.2f}"` succeeds in Python: numbers and
booleans format, everything else raises. -/
def printableCell : JValue → Bool
  | .jnum _ => true
  | .jbool _ => true
  | _ => false

/-- `print_current_data` formats the twelve axis values (not the times) with
`:6.2f`; it succeeds exactly when all twelve are printable. -/
def printableSnapshot (s : SensorSnapshot) : Bool :=
  printableCell s.gravity.x && printableCell s.gravity.y &&
  printableCell s.gravity.z &&
  printableCell s.linear_acceleration.x && printableCell s.linear_acceleration.y &&
  printableCell s.linear_acceleration.z &&
  printableCell s.acceleration.x && printableCell s.acceleration.y &&
  printableCell s.acceleration.z &&
  printableCell s.gyroscope.x && printableCell s.gyroscope.y &&
  printableCell s.gyroscope.z

/-- Observable effect of one pass through the `while self.is_running` body:
the buffer and queue afterwards, the `time.sleep` durations performed (in
order, in seconds), and how many error messages were printed. -/
structure IterEffect where
  buffer : List SensorSnapshot
  queue : List SensorSnapshot
  sleeps : List Rat
  notices : Nat

/-- One iteration of `collect_data` at clock `now`, buffer capacity `C`,
given the transport's outcome:
* `RequestException` → error print, `time.sleep(2)`, nothing pushed;
* payload whose parse returns `None` → error print (inside
  `parse_sensor_data`), only the regular `time.sleep(0.1)`, nothing pushed;
* parsed snapshot whose values all format → append to buffer, put on queue,
  print readings, `time.sleep(0.1)`;
* parsed snapshot with an unformattable value → append and put happen first,
  then `print_current_data` raises, caught by `except Exception`: error
  print and `time.sleep(1)`.
The loop continues after every case. -/
def collect_iteration (C : Nat) (now : Nat) (buf q : List SensorSnapshot)
    (fr : FetchResult) : IterEffect :=
  match fr with
  | .transportError =>
      { buffer := buf, queue := q, sleeps := [2], notices := 1 }
  | .ok raw =>
      match parse_sensor_data now raw with
      | none =>
          { buffer := buf, queue := q, sleeps := [1/10], notices := 1 }
      | some s =>
          if printableSnapshot s then
            { buffer := pushBuffer C buf s, queue := q ++ [s],
              sleeps := [1/10], notices := 0 }
          else
            { buffer := pushBuffer C buf s, queue := q ++ [s],
              sleeps := [1], notices := 1 }

/-- Several consecutive iterations of the loop body (the loop never exits on
a failure, so every fetch outcome is processed). -/
def collect_run (C : Nat) (now : Nat) (buf q : List SensorSnapshot) :
    List FetchResult → IterEffect
  | [] => { buffer := buf, queue := q, sleeps := [], notices := 0 }
  | fr :: frs =>
      let e := collect_iteration C now buf q fr
      let rest := collect_run C now e.buffer e.queue frs
      { buffer := rest.buffer, queue := rest.queue,
        sleeps := e.sleeps ++ rest.sleeps, notices := e.notices + rest.notices }

/-! ## Exporter (`export_to_dataframe` and the CSV write in `main`) -/

/-- A tabular cell: the `datetime` timestamp or a sensor value. -/
inductive Cell where
  | ts : Nat → Cell
  | val : JValue → Cell

/-- The row built for one snapshot in `export_to_dataframe`, keys in source
order. -/
def rowOf (s : SensorSnapshot) : List (String × Cell) :=
  [("timestamp", .ts s.timestamp),
   ("gravity_x", .val s.gravity.x),
   ("gravity_y", .val s.gravity.y),
   ("gravity_z", .val s.gravity.z),
   ("gravity_time", .val s.gravity.time),
   ("lin_acc_x", .val s.linear_acceleration.x),
   ("lin_acc_y", .val s.linear_acceleration.y),
   ("lin_acc_z", .val s.linear_acceleration.z),
   ("lin_acc_time", .val s.linear_acceleration.time),
   ("acc_x", .val s.acceleration.x),
   ("acc_y", .val s.acceleration.y),
   ("acc_z", .val s.acceleration.z),
   ("acc_time", .val s.acceleration.time),
   ("gyro_x", .val s.gyroscope.x),
   ("gyro_y", .val s.gyroscope.y),
   ("gyro_z", .val s.gyroscope.z),
   ("gyro_time", .val s.gyroscope.time)]

/-- `export_to_dataframe`: an empty frame for an empty buffer, else one row
per buffered snapshot in buffer order. -/
def export_to_dataframe (buf : List SensorSnapshot) : List (List (String × Cell)) :=
  if buf.isEmpty then [] else buf.map rowOf

/-- The 17 column names, in order. -/
def export_columns : List String :=
  ["timestamp",
   "gravity_x", "gravity_y", "gravity_z", "gravity_time",
   "lin_acc_x", "lin_acc_y", "lin_acc_z", "lin_acc_time",
   "acc_x", "acc_y", "acc_z", "acc_time",
   "gyro_x", "gyro_y", "gyro_z", "gyro_time"]

/-- The shutdown path of `main`: `df.to_csv` runs only under
`if not df.empty`, so an empty buffer produces no file. -/
def exportedFile (buf : List SensorSnapshot) :
    Option (List (List (String × Cell))) :=
  if (export_to_dataframe buf).isEmpty then none else some (export_to_dataframe buf)

/-! ## Predicates and concrete values used in statements and witnesses -/

/-- `true` on `.ok`, `false` on `.error`. -/
def exceptOk {α : Type} : Except Unit α → Bool
  | .ok _ => true
  | .error _ => false

/-- Values `bd` on which `buffer_data[0] if len(buffer_data) > 0 else 0.0`
does not raise: sequences, strings, and empty dicts (a nonempty dict has
`len > 0` but no key `0`). -/
def bufferValOk : JValue → Bool
  | .jarr _ => true
  | .jstr _ => true
  | .jobj kvs => kvs.isEmpty
  | _ => false

/-- Structural condition on one channel entry of the payload's `buffer` dict
under which `safe_extract` does not raise. -/
def chanOk (bkvs : List (String × JValue)) (c : String) : Bool :=
  match fieldsLookup bkvs c with
  | none => true
  | some (.jobj ckvs) => bufferValOk ((fieldsLookup ckvs "buffer").getD (.jarr []))
  | some _ => false

/-- Minimal well-formedness of a payload: a mapping whose `buffer` member
(defaulting to `{}`) is a mapping, each requested channel entry being either
absent or a mapping whose `buffer` member (defaulting to `[]`) supports
`len` and, when nonempty, indexing at `0`. -/
def minimally_well_formed : JValue → Bool
  | .jobj kvs =>
      match (fieldsLookup kvs "buffer").getD (.jobj []) with
      | .jobj bkvs => sensor_types.all (chanOk bkvs)
      | _ => false
  | _ => false

/-- All-zero channel group, as produced from an empty payload. -/
def zeroGroup : ChannelGroup := ⟨jnum 0, jnum 0, jnum 0, jnum 0⟩

/-- A concrete snapshot used to instantiate buffer facts. -/
def demoSnap (t : Nat) : SensorSnapshot :=
  { timestamp := t, gravity := zeroGroup, linear_acceleration := zeroGroup,
    acceleration := zeroGroup, gyroscope := zeroGroup }

/-- A payload with only channel `graX` present (one sample), `gyroX` missing
entirely. -/
def demoPayload : JValue :=
  jobj [("buffer", jobj [("graX", jobj [("buffer", jarr [jnum 9])])])]

/-- The snapshot `parse_sensor_data 7 demoPayload` produces. -/
def demoParsedSnap : SensorSnapshot :=
  { timestamp := 7, gravity := ⟨jnum 9, jnum 0, jnum 0, jnum 0⟩,
    linear_acceleration := zeroGroup, acceleration := zeroGroup,
    gyroscope := zeroGroup }

/-- A payload whose `gyroX` buffer is present with the single sample `null`. -/
def demoNullPayload : JValue :=
  jobj [("buffer", jobj [("gyroX", jobj [("buffer", jarr [jnull])])])]

/-! ## Buffer lemmas -/

theorem takeLast_append (C : Nat) (x y : List SensorSnapshot) :
    takeLast C (takeLast C x ++ y) = takeLast C (x ++ y) := by
  unfold takeLast
  rcases le_or_lt x.length C with h | h
  · rw [Nat.sub_eq_zero_of_le h, List.drop_zero]
  · have h1 : (x.drop (x.length - C) ++ y).length - C = y.length := by
      rw [List.length_append, List.length_drop]; omega
    have h2 : (x ++ y).length - C = (x.length - C) + y.length := by
      rw [List.length_append]; omega
    have key : (x ++ y).drop ((x.length - C) + y.length)
        = (x.drop (x.length - C) ++ y).drop y.length := by
      conv_lhs => rw [← List.drop_drop, List.drop_append_eq_append_drop]
      rw [Nat.sub_eq_zero_of_le (Nat.sub_le _ _), List.drop_zero]
    rw [h1, h2, key]

theorem foldl_pushBuffer (C : Nat) (l buf : List SensorSnapshot) :
    l.foldl (pushBuffer C) (takeLast C buf) = takeLast C (buf ++ l) := by
  induction l generalizing buf with
  | nil => rw [List.foldl_nil, List.append_nil]
  | cons s rest ih =>
    rw [List.foldl_cons]
    have hp : pushBuffer C (takeLast C buf) s = takeLast C (buf ++ [s]) := by
      rw [pushBuffer, takeLast_append]
    rw [hp, ih (buf ++ [s]), List.append_assoc, List.singleton_append]

theorem foldl_pushBuffer_nil (C : Nat) (l : List SensorSnapshot) :
    l.foldl (pushBuffer C) [] = takeLast C l := by
  have h0 : takeLast C ([] : List SensorSnapshot) = [] := by
    rw [takeLast, List.drop_nil]
  have h := foldl_pushBuffer C l []
  rw [List.nil_append, h0] at h
  exact h

theorem takeLast_length (C : Nat) (l : List SensorSnapshot) :
    (takeLast C l).length = min l.length C := by
  rw [takeLast, List.length_drop]; omega

/-- C1: for every sequence of `N` pushes into a rolling buffer of capacity
`C < N`, `history()` with no count returns exactly the last `C` pushed
snapshots in push order (oldest first), and the buffer length never exceeds
`C` at any point along the way. -/
theorem rollingBuffer_capacity_history (C : Nat) (snaps : List SensorSnapshot)
    (_hCN : C < snaps.length) :
    get_data_history (snaps.foldl (pushBuffer C) []) none
      = snaps.drop (snaps.length - C)
    ∧ ∀ k : Nat, ((snaps.take k).foldl (pushBuffer C) []).length ≤ C := by
  constructor
  · show snaps.foldl (pushBuffer C) [] = snaps.drop (snaps.length - C)
    rw [foldl_pushBuffer_nil, takeLast]
  · intro k
    rw [foldl_pushBuffer_nil, takeLast_length]
    omega

/-- C1 witness at capacity 1 with two pushes. -/
theorem rollingBuffer_capacity_history_witness :
    get_data_history ([demoSnap 0, demoSnap 1].foldl (pushBuffer 1) []) none
      = [demoSnap 1]
    ∧ (([demoSnap 0, demoSnap 1].take 2).foldl (pushBuffer 1) []).length ≤ 1 := by
  have h := rollingBuffer_capacity_history 1 [demoSnap 0, demoSnap 1] (by simp)
  refine ⟨?_, h.2 2⟩
  have h1 := h.1
  simpa using h1

/-- C4 counterexample: `history(0)` on a one-element buffer returns the whole
buffer, not the empty sequence (`lst[-0:]` is `lst[0:]`). -/
theorem history_zero_counterexample :
    get_data_history [demoSnap 0] (some 0) = [demoSnap 0]
    ∧ get_data_history [demoSnap 0] (some 0) ≠ [] := by
  constructor
  · rfl
  · show ¬ _ = _
    simp [get_data_history, pyTailSlice]

/-- C4 corrected: `history()` with no count returns all entries;
`history(count)` for `count ≥ 1` returns the last `count` entries oldest
first; but `history(0)` also returns all entries, not the empty sequence. -/
theorem history_count_amended (buf : List SensorSnapshot) (c : Nat) :
    get_data_history buf none = buf
    ∧ get_data_history buf (some 0) = buf
    ∧ (0 < c → get_data_history buf (some c) = buf.drop (buf.length - c)) := by
  refine ⟨rfl, rfl, fun hc => ?_⟩
  show pyTailSlice buf c = _
  rw [pyTailSlice, if_neg (by omega)]

/-- C4 witness: `history(1)` on a two-element buffer. -/
theorem history_count_amended_witness :
    get_data_history [demoSnap 0, demoSnap 1] (some 1)
      = [demoSnap 0, demoSnap 1].drop ([demoSnap 0, demoSnap 1].length - 1) :=
  (history_count_amended [demoSnap 0, demoSnap 1] 1).2.2 Nat.one_pos

/-- C5: `latest()` on an empty buffer returns `None` (the defined empty
signal, not a zero-filled record), and after a push into a buffer of
capacity at least 1 it returns the snapshot just pushed. -/
theorem latest_empty_and_push (C : Nat) (buf : List SensorSnapshot)
    (s : SensorSnapshot) (hC : 1 ≤ C) :
    get_latest_data [] = none ∧ get_latest_data (pushBuffer C buf s) = some s := by
  refine ⟨rfl, ?_⟩
  rw [get_latest_data, pushBuffer, takeLast]
  have hk : (buf ++ [s]).length - C ≤ buf.length := by
    rw [List.length_append]; simp; omega
  rw [List.drop_append_eq_append_drop, Nat.sub_eq_zero_of_le hk, List.drop_zero]
  exact List.getLast?_concat _

/-- C5 witness at capacity 1. -/
theorem latest_empty_and_push_witness :
    get_latest_data [] = none
    ∧ get_latest_data (pushBuffer 1 [] (demoSnap 0)) = some (demoSnap 0) :=
  latest_empty_and_push 1 [] (demoSnap 0) (Nat.le_refl 1)

/-- C6 counterexample: after `start(); stop()` the reader has spawned one
polling thread and is stopped, yet a further `start()` sets the running flag
again and spawns a second polling thread — `Stopped` is not terminal and
`start()` after `stop()` silently restarts polling. -/
theorem start_after_stop_counterexample :
    (stop_collection (start_collection initReaderState)).spawn_count = 1
    ∧ (stop_collection (start_collection initReaderState)).is_running = false
    ∧ (start_collection (stop_collection (start_collection initReaderState))).is_running
        = true
    ∧ (start_collection (stop_collection (start_collection initReaderState))).spawn_count
        = 2 :=
  ⟨rfl, rfl, rfl, rfl⟩

/-- C6 corrected: `start()` while already running is an idempotent no-op
(no second polling activity is spawned) and `stop()` is idempotent, but the
state machine is a two-state flag: whenever the flag is down — initially or
after `stop()` — `start()` raises it and spawns a fresh polling thread, so
`Stopped` is not terminal. -/
theorem collection_state_amended (st : ReaderState) :
    (st.is_running = true → start_collection st = st)
    ∧ stop_collection (stop_collection st) = stop_collection st
    ∧ (st.is_running = false →
        start_collection st
          = { is_running := true, spawn_count := st.spawn_count + 1 })
    ∧ (start_collection (stop_collection st)).is_running = true := by
  refine ⟨fun h => ?_, rfl, fun h => ?_, rfl⟩
  · rw [start_collection, if_pos h]
  · rw [start_collection, if_neg (by simp [h])]

/-- C6 witness: a running state and a stopped state. -/
theorem collection_state_amended_witness :
    start_collection { is_running := true, spawn_count := 1 }
        = { is_running := true, spawn_count := 1 }
    ∧ start_collection { is_running := false, spawn_count := 1 }
        = { is_running := true, spawn_count := 2 } :=
  ⟨(collection_state_amended _).1 rfl, (collection_state_amended _).2.2.1 rfl⟩

/-! ## Parser lemmas -/

theorem bindE_ok {α β : Type} (a : α) (f : α → Except Unit β) :
    (Bind.bind (Except.ok a) f : Except Unit β) = f a := rfl

theorem bindE_error {α β : Type} (e : Unit) (f : α → Except Unit β) :
    (Bind.bind (Except.error e) f : Except Unit β) = Except.error e := rfl

theorem safe_extract_eq_headD (raw : JValue) (name : String) (l : List JValue)
    (h : channelBuffer raw name = .ok (.jarr l)) :
    safe_extract raw name = .ok (l.headD (jnum 0)) := by
  unfold safe_extract
  rw [h, bindE_ok]
  cases l <;>
    simp [JValue.pyLen, JValue.pyIndexZero, bindE_ok, List.headD]

theorem safe_extract_error_of_cb (raw : JValue) (name : String)
    (h : channelBuffer raw name = .error ()) :
    safe_extract raw name = .error () := by
  unfold safe_extract
  rw [h, bindE_error]

theorem exceptOk_safe_extract_of_cb (raw : JValue) (name : String)
    (bd : JValue) (h : channelBuffer raw name = .ok bd) :
    exceptOk (safe_extract raw name) = bufferValOk bd := by
  unfold safe_extract
  rw [h, bindE_ok]
  cases bd with
  | jarr xs =>
      cases xs <;>
        simp [JValue.pyLen, JValue.pyIndexZero, bindE_ok, exceptOk, bufferValOk]
  | jstr s =>
      obtain ⟨cs⟩ := s
      cases cs <;>
        simp [JValue.pyLen, JValue.pyIndexZero, bindE_ok, exceptOk, bufferValOk,
          String.length]
  | jobj kvs =>
      cases kvs <;>
        simp [JValue.pyLen, JValue.pyIndexZero, bindE_ok, exceptOk, bufferValOk,
          List.isEmpty]
  | jnull => rfl
  | jbool b => rfl
  | jnum q => rfl

/-- The parse body applied to payloads whose sixteen channel chains all
resolve to lists: each snapshot field is the head of the corresponding list,
or `0.0` when that list is empty. -/
theorem parse_eq_of_lists (now : Nat) (raw : JValue) (ls : String → List JValue)
    (h : ∀ c ∈ sensor_types, channelBuffer raw c = .ok (.jarr (ls c))) :
    parse_sensor_data now raw = some
      { timestamp := now
        gravity := ⟨(ls "graX").headD (jnum 0), (ls "graY").headD (jnum 0),
                    (ls "graZ").headD (jnum 0), (ls "graT").headD (jnum 0)⟩
        linear_acceleration :=
          ⟨(ls "lin_accX").headD (jnum 0), (ls "lin_accY").headD (jnum 0),
           (ls "lin_accZ").headD (jnum 0), (ls "lin_acc_time").headD (jnum 0)⟩
        acceleration :=
          ⟨(ls "accX").headD (jnum 0), (ls "accY").headD (jnum 0),
           (ls "accZ").headD (jnum 0), (ls "acc_time").headD (jnum 0)⟩
        gyroscope :=
          ⟨(ls "gyroX").headD (jnum 0), (ls "gyroY").headD (jnum 0),
           (ls "gyroZ").headD (jnum 0), (ls "gyro_time").headD (jnum 0)⟩ } := by
  have e01 := safe_extract_eq_headD raw "graX" (ls "graX")
    (h "graX" (by simp [sensor_types]))
  have e02 := safe_extract_eq_headD raw "graY" (ls "graY")
    (h "graY" (by simp [sensor_types]))
  have e03 := safe_extract_eq_headD raw "graZ" (ls "graZ")
    (h "graZ" (by simp [sensor_types]))
  have e04 := safe_extract_eq_headD raw "graT" (ls "graT")
    (h "graT" (by simp [sensor_types]))
  have e05 := safe_extract_eq_headD raw "lin_accX" (ls "lin_accX")
    (h "lin_accX" (by simp [sensor_types]))
  have e06 := safe_extract_eq_headD raw "lin_accY" (ls "lin_accY")
    (h "lin_accY" (by simp [sensor_types]))
  have e07 := safe_extract_eq_headD raw "lin_accZ" (ls "lin_accZ")
    (h "lin_accZ" (by simp [sensor_types]))
  have e08 := safe_extract_eq_headD raw "lin_acc_time" (ls "lin_acc_time")
    (h "lin_acc_time" (by simp [sensor_types]))
  have e09 := safe_extract_eq_headD raw "accX" (ls "accX")
    (h "accX" (by simp [sensor_types]))
  have e10 := safe_extract_eq_headD raw "accY" (ls "accY")
    (h "accY" (by simp [sensor_types]))
  have e11 := safe_extract_eq_headD raw "accZ" (ls "accZ")
    (h "accZ" (by simp [sensor_types]))
  have e12 := safe_extract_eq_headD raw "acc_time" (ls "acc_time")
    (h "acc_time" (by simp [sensor_types]))
  have e13 := safe_extract_eq_headD raw "gyroX" (ls "gyroX")
    (h "gyroX" (by simp [sensor_types]))
  have e14 := safe_extract_eq_headD raw "gyroY" (ls "gyroY")
    (h "gyroY" (by simp [sensor_types]))
  have e15 := safe_extract_eq_headD raw "gyroZ" (ls "gyroZ")
    (h "gyroZ" (by simp [sensor_types]))
  have e16 := safe_extract_eq_headD raw "gyro_time" (ls "gyro_time")
    (h "gyro_time" (by simp [sensor_types]))
  simp only [parse_sensor_data, parse_body, e01, e02, e03, e04, e05, e06, e07,
    e08, e09, e10, e11, e12, e13, e14, e15, e16, bindE_ok, Except.toOption]

/-- C2: for every well-formed payload mapping — each of the sixteen requested
channel chains resolving to a list, an absent channel resolving to the
default `[]` — the parser raises no error and fills each of the twelve axis
channels and four device-timestamp channels from index 0 of that channel's
buffer, substituting `0.0` whenever the channel is absent or its buffer is
empty; a payload entirely missing `gyroX` therefore yields
`gyroscope.x = 0.0` (see the witness). -/
theorem parser_default_and_index_zero (now : Nat) (raw : JValue)
    (ls : String → List JValue)
    (h : ∀ c ∈ sensor_types, channelBuffer raw c = .ok (.jarr (ls c))) :
    parse_sensor_data now raw = some
      { timestamp := now
        gravity := ⟨(ls "graX").headD (jnum 0), (ls "graY").headD (jnum 0),
                    (ls "graZ").headD (jnum 0), (ls "graT").headD (jnum 0)⟩
        linear_acceleration :=
          ⟨(ls "lin_accX").headD (jnum 0), (ls "lin_accY").headD (jnum 0),
           (ls "lin_accZ").headD (jnum 0), (ls "lin_acc_time").headD (jnum 0)⟩
        acceleration :=
          ⟨(ls "accX").headD (jnum 0), (ls "accY").headD (jnum 0),
           (ls "accZ").headD (jnum 0), (ls "acc_time").headD (jnum 0)⟩
        gyroscope :=
          ⟨(ls "gyroX").headD (jnum 0), (ls "gyroY").headD (jnum 0),
           (ls "gyroZ").headD (jnum 0), (ls "gyro_time").headD (jnum 0)⟩ } :=
  parse_eq_of_lists now raw ls h

/-- C2 witness: a payload with only `graX` present (one sample `9`) and
`gyroX` missing entirely parses without error to a snapshot with
`gravity.x = 9` and `gyroscope.x = 0.0`. -/
theorem parser_default_and_index_zero_witness :
    parse_sensor_data 7 demoPayload = some demoParsedSnap
    ∧ demoParsedSnap.gyroscope.x = jnum 0
    ∧ demoParsedSnap.gravity.x = jnum 9 := by
  have h := parser_default_and_index_zero 7 demoPayload
    (fun c => if c = "graX" then [jnum 9] else [])
    (by intro c hc; fin_cases hc <;> rfl)
  refine ⟨?_, rfl, rfl⟩
  simpa [demoParsedSnap, zeroGroup] using h

/-- C9: when a channel's buffer is present with at least one element, the
parser stores that buffer's element at index 0 in the snapshot verbatim —
no coercion to float, no defaulting — so a present-but-`null` first sample
propagates into the snapshot instead of being replaced by `0.0`, and
snapshot fields are not guaranteed to be numeric. -/
theorem extract_verbatim_no_coercion :
    (∀ (raw : JValue) (c : String) (v : JValue) (rest : List JValue),
        channelBuffer raw c = .ok (.jarr (v :: rest)) →
        safe_extract raw c = .ok v)
    ∧ (∀ (now : Nat) (raw : JValue) (ls : String → List JValue),
        (∀ c ∈ sensor_types, channelBuffer raw c = .ok (.jarr (ls c))) →
        ls "gyroX" = [jnull] →
        ∃ s, parse_sensor_data now raw = some s
          ∧ s.gyroscope.x = jnull ∧ s.gyroscope.x ≠ jnum 0) := by
  constructor
  · intro raw c v rest h
    have hh := safe_extract_eq_headD raw c (v :: rest) h
    simpa [List.headD] using hh
  · intro now raw ls h hx
    refine ⟨_, parse_eq_of_lists now raw ls h, ?_, ?_⟩
    · show (ls "gyroX").headD (jnum 0) = jnull
      rw [hx]; rfl
    · show (ls "gyroX").headD (jnum 0) ≠ jnum 0
      rw [hx]
      exact fun hcon => JValue.noConfusion hcon

/-- C9 witness: a payload whose `gyroX` buffer is `[null]` parses to a
snapshot with `gyroscope.x = null`, not `0.0`. -/
theorem extract_verbatim_no_coercion_witness :
    safe_extract demoNullPayload "gyroX" = .ok jnull
    ∧ ∃ s, parse_sensor_data 3 demoNullPayload = some s
        ∧ s.gyroscope.x = jnull ∧ s.gyroscope.x ≠ jnum 0 := by
  refine ⟨?_, ?_⟩
  · exact (extract_verbatim_no_coercion).1 demoNullPayload "gyroX" jnull [] rfl
  · exact (extract_verbatim_no_coercion).2 3 demoNullPayload
      (fun c => if c = "gyroX" then [jnull] else [])
      (by intro c hc; fin_cases hc <;> rfl) rfl

theorem exists_ok_of_exceptOk {α : Type} (x : Except Unit α)
    (h : exceptOk x = true) : ∃ v, x = .ok v := by
  cases x with
  | ok v => exact ⟨v, rfl⟩
  | error e => simp [exceptOk] at h

theorem ok_of_bind_ok {α β : Type} (x : Except Unit α) (f : α → Except Unit β)
    (y : β) (h : Bind.bind x f = .ok y) : ∃ a, x = .ok a ∧ f a = .ok y := by
  cases x with
  | error e => rw [bindE_error] at h; exact Except.noConfusion h
  | ok a => rw [bindE_ok] at h; exact ⟨a, rfl, h⟩

theorem parse_isSome_of_all (now : Nat) (raw : JValue)
    (h : ∀ c ∈ sensor_types, exceptOk (safe_extract raw c) = true) :
    (parse_sensor_data now raw).isSome = true := by
  obtain ⟨v01, h01⟩ := exists_ok_of_exceptOk _ (h "graX" (by simp [sensor_types]))
  obtain ⟨v02, h02⟩ := exists_ok_of_exceptOk _ (h "graY" (by simp [sensor_types]))
  obtain ⟨v03, h03⟩ := exists_ok_of_exceptOk _ (h "graZ" (by simp [sensor_types]))
  obtain ⟨v04, h04⟩ := exists_ok_of_exceptOk _ (h "graT" (by simp [sensor_types]))
  obtain ⟨v05, h05⟩ :=
    exists_ok_of_exceptOk _ (h "lin_accX" (by simp [sensor_types]))
  obtain ⟨v06, h06⟩ :=
    exists_ok_of_exceptOk _ (h "lin_accY" (by simp [sensor_types]))
  obtain ⟨v07, h07⟩ :=
    exists_ok_of_exceptOk _ (h "lin_accZ" (by simp [sensor_types]))
  obtain ⟨v08, h08⟩ :=
    exists_ok_of_exceptOk _ (h "lin_acc_time" (by simp [sensor_types]))
  obtain ⟨v09, h09⟩ := exists_ok_of_exceptOk _ (h "accX" (by simp [sensor_types]))
  obtain ⟨v10, h10⟩ := exists_ok_of_exceptOk _ (h "accY" (by simp [sensor_types]))
  obtain ⟨v11, h11⟩ := exists_ok_of_exceptOk _ (h "accZ" (by simp [sensor_types]))
  obtain ⟨v12, h12⟩ :=
    exists_ok_of_exceptOk _ (h "acc_time" (by simp [sensor_types]))
  obtain ⟨v13, h13⟩ := exists_ok_of_exceptOk _ (h "gyroX" (by simp [sensor_types]))
  obtain ⟨v14, h14⟩ := exists_ok_of_exceptOk _ (h "gyroY" (by simp [sensor_types]))
  obtain ⟨v15, h15⟩ := exists_ok_of_exceptOk _ (h "gyroZ" (by simp [sensor_types]))
  obtain ⟨v16, h16⟩ :=
    exists_ok_of_exceptOk _ (h "gyro_time" (by simp [sensor_types]))
  simp [parse_sensor_data, parse_body, h01, h02, h03, h04, h05, h06, h07, h08,
    h09, h10, h11, h12, h13, h14, h15, h16, bindE_ok, Except.toOption]

theorem all_of_parse_isSome (now : Nat) (raw : JValue)
    (h : (parse_sensor_data now raw).isSome = true) :
    ∀ c ∈ sensor_types, exceptOk (safe_extract raw c) = true := by
  rw [parse_sensor_data] at h
  obtain ⟨s, hs⟩ : ∃ s, parse_body now raw = .ok s := by
    cases hb : parse_body now raw with
    | ok s => exact ⟨s, rfl⟩
    | error e => rw [hb] at h; simp [Except.toOption] at h
  rw [parse_body] at hs
  obtain ⟨v01, h01, hs⟩ := ok_of_bind_ok _ _ _ hs
  obtain ⟨v02, h02, hs⟩ := ok_of_bind_ok _ _ _ hs
  obtain ⟨v03, h03, hs⟩ := ok_of_bind_ok _ _ _ hs
  obtain ⟨v04, h04, hs⟩ := ok_of_bind_ok _ _ _ hs
  obtain ⟨v05, h05, hs⟩ := ok_of_bind_ok _ _ _ hs
  obtain ⟨v06, h06, hs⟩ := ok_of_bind_ok _ _ _ hs
  obtain ⟨v07, h07, hs⟩ := ok_of_bind_ok _ _ _ hs
  obtain ⟨v08, h08, hs⟩ := ok_of_bind_ok _ _ _ hs
  obtain ⟨v09, h09, hs⟩ := ok_of_bind_ok _ _ _ hs
  obtain ⟨v10, h10, hs⟩ := ok_of_bind_ok _ _ _ hs
  obtain ⟨v11, h11, hs⟩ := ok_of_bind_ok _ _ _ hs
  obtain ⟨v12, h12, hs⟩ := ok_of_bind_ok _ _ _ hs
  obtain ⟨v13, h13, hs⟩ := ok_of_bind_ok _ _ _ hs
  obtain ⟨v14, h14, hs⟩ := ok_of_bind_ok _ _ _ hs
  obtain ⟨v15, h15, hs⟩ := ok_of_bind_ok _ _ _ hs
  obtain ⟨v16, h16, hs⟩ := ok_of_bind_ok _ _ _ hs
  intro c hc
  fin_cases hc <;>
    simp [exceptOk, h01, h02, h03, h04, h05, h06, h07, h08, h09, h10, h11,
      h12, h13, h14, h15, h16]

theorem exceptOk_extract_jobj (kvs bkvs : List (String × JValue)) (c : String)
    (hb : (fieldsLookup kvs "buffer").getD (jobj []) = jobj bkvs) :
    exceptOk (safe_extract (jobj kvs) c) = chanOk bkvs c := by
  have hcb : channelBuffer (jobj kvs) c
      = Bind.bind ((jobj bkvs).pyGet c (jobj []))
          (fun ch => ch.pyGet "buffer" (jarr [])) := by
    unfold channelBuffer
    rw [JValue.pyGet, bindE_ok, hb]
  cases hch : fieldsLookup bkvs c with
  | none =>
      have hok : channelBuffer (jobj kvs) c = .ok (jarr []) := by
        rw [hcb, JValue.pyGet, hch, bindE_ok]
        rfl
      rw [exceptOk_safe_extract_of_cb _ _ _ hok]
      simp [chanOk, hch, bufferValOk]
  | some ch =>
      cases ch with
      | jobj ckvs =>
          have hok : channelBuffer (jobj kvs) c
              = .ok ((fieldsLookup ckvs "buffer").getD (jarr [])) := by
            rw [hcb, JValue.pyGet, hch, bindE_ok]
            rfl
          rw [exceptOk_safe_extract_of_cb _ _ _ hok]
          simp [chanOk, hch]
      | jnull =>
          have he : channelBuffer (jobj kvs) c = .error () := by
            rw [hcb, JValue.pyGet, hch, bindE_ok]
            rfl
          rw [safe_extract_error_of_cb _ _ he]
          simp [chanOk, hch, exceptOk]
      | jbool b =>
          have he : channelBuffer (jobj kvs) c = .error () := by
            rw [hcb, JValue.pyGet, hch, bindE_ok]
            rfl
          rw [safe_extract_error_of_cb _ _ he]
          simp [chanOk, hch, exceptOk]
      | jnum q =>
          have he : channelBuffer (jobj kvs) c = .error () := by
            rw [hcb, JValue.pyGet, hch, bindE_ok]
            rfl
          rw [safe_extract_error_of_cb _ _ he]
          simp [chanOk, hch, exceptOk]
      | jstr s =>
          have he : channelBuffer (jobj kvs) c = .error () := by
            rw [hcb, JValue.pyGet, hch, bindE_ok]
            rfl
          rw [safe_extract_error_of_cb _ _ he]
          simp [chanOk, hch, exceptOk]
      | jarr xs =>
          have he : channelBuffer (jobj kvs) c = .error () := by
            rw [hcb, JValue.pyGet, hch, bindE_ok]
            rfl
          rw [safe_extract_error_of_cb _ _ he]
          simp [chanOk, hch, exceptOk]

theorem minWF_eq (raw : JValue) :
    minimally_well_formed raw
      = sensor_types.all (fun c => exceptOk (safe_extract raw c)) := by
  cases raw with
  | jobj kvs =>
      cases hb : (fieldsLookup kvs "buffer").getD (jobj []) with
      | jobj bkvs =>
          have key : ∀ c, exceptOk (safe_extract (jobj kvs) c) = chanOk bkvs c :=
            fun c => exceptOk_extract_jobj kvs bkvs c hb
          simp [minimally_well_formed, hb, sensor_types, key]
      | jnull =>
          have herr : ∀ c, safe_extract (jobj kvs) c = .error () := by
            intro c
            apply safe_extract_error_of_cb
            unfold channelBuffer
            rw [JValue.pyGet, bindE_ok, hb]
            rfl
          simp [minimally_well_formed, hb, sensor_types, herr, exceptOk]
      | jbool b =>
          have herr : ∀ c, safe_extract (jobj kvs) c = .error () := by
            intro c
            apply safe_extract_error_of_cb
            unfold channelBuffer
            rw [JValue.pyGet, bindE_ok, hb]
            rfl
          simp [minimally_well_formed, hb, sensor_types, herr, exceptOk]
      | jnum q =>
          have herr : ∀ c, safe_extract (jobj kvs) c = .error () := by
            intro c
            apply safe_extract_error_of_cb
            unfold channelBuffer
            rw [JValue.pyGet, bindE_ok, hb]
            rfl
          simp [minimally_well_formed, hb, sensor_types, herr, exceptOk]
      | jstr s =>
          have herr : ∀ c, safe_extract (jobj kvs) c = .error () := by
            intro c
            apply safe_extract_error_of_cb
            unfold channelBuffer
            rw [JValue.pyGet, bindE_ok, hb]
            rfl
          simp [minimally_well_formed, hb, sensor_types, herr, exceptOk]
      | jarr xs =>
          have herr : ∀ c, safe_extract (jobj kvs) c = .error () := by
            intro c
            apply safe_extract_error_of_cb
            unfold channelBuffer
            rw [JValue.pyGet, bindE_ok, hb]
            rfl
          simp [minimally_well_formed, hb, sensor_types, herr, exceptOk]
  | jnull =>
      have herr : ∀ c : String, safe_extract jnull c = .error () := fun c => rfl
      simp [minimally_well_formed, sensor_types, herr, exceptOk]
  | jbool b =>
      have herr : ∀ c : String, safe_extract (jbool b) c = .error () :=
        fun c => rfl
      simp [minimally_well_formed, sensor_types, herr, exceptOk]
  | jnum q =>
      have herr : ∀ c : String, safe_extract (jnum q) c = .error () :=
        fun c => rfl
      simp [minimally_well_formed, sensor_types, herr, exceptOk]
  | jstr s =>
      have herr : ∀ c : String, safe_extract (jstr s) c = .error () :=
        fun c => rfl
      simp [minimally_well_formed, sensor_types, herr, exceptOk]
  | jarr xs =>
      have herr : ∀ c : String, safe_extract (jarr xs) c = .error () :=
        fun c => rfl
      simp [minimally_well_formed, sensor_types, herr, exceptOk]

/-- C3: the parse operation signals its failure marker to the caller exactly
when the payload is not minimally well-formed (`minimally_well_formed` is a
structural predicate: a mapping, with mapping-shaped `buffer` and channel
entries, and `len`-supporting, index-0-supporting channel buffers) — never
for a well-formed payload with fields merely missing; in particular a
structurally invalid payload that is not a mapping (a JSON array) makes
`parse_sensor_data` signal failure. -/
theorem parse_failure_iff_malformed :
    (∀ (now : Nat) (raw : JValue),
        parse_sensor_data now raw = none ↔ minimally_well_formed raw = false)
    ∧ (∀ now : Nat, parse_sensor_data now (jarr []) = none) := by
  constructor
  · intro now raw
    constructor
    · intro h
      rcases Bool.eq_false_or_eq_true (minimally_well_formed raw) with hmw | hmw
      swap
      · exact hmw
      · exfalso
        rw [minWF_eq] at hmw
        have hall : ∀ c ∈ sensor_types, exceptOk (safe_extract raw c) = true := by
          simpa [List.all_eq_true] using hmw
        have hsome := parse_isSome_of_all now raw hall
        rw [h] at hsome
        simp at hsome
    · intro h
      cases hp : parse_sensor_data now raw with
      | none => rfl
      | some s =>
          have hall := all_of_parse_isSome now raw (by simp [hp])
          have htrue : minimally_well_formed raw = true := by
            rw [minWF_eq]
            simpa [List.all_eq_true] using hall
          rw [h] at htrue
          exact Bool.noConfusion htrue
  · intro now
    rfl

/-- C7 counterexample: an iteration whose payload fails to parse (here a JSON
array) performs only the regular `0.1`-second sampling sleep, not the
1-time-unit backoff the claim states (and not the 2-unit transport backoff). -/
theorem parse_failure_backoff_counterexample :
    parse_sensor_data 0 (jarr []) = none
    ∧ (collect_iteration 1000 0 [] [] (.ok (jarr []))).sleeps = [1/10]
    ∧ ((1 : Rat)/10 ≠ 1) ∧ ((1 : Rat)/10 ≠ 2) := by
  refine ⟨rfl, rfl, by norm_num, by norm_num⟩

/-- C7 corrected: while running, a transport failure notifies and backs off
2 time units with nothing pushed; a payload whose parse fails notifies (from
inside the parser) but performs only the regular 0.1-unit sampling sleep,
with nothing pushed; a successfully parsed snapshot is appended to the buffer
and queue, and if printing it then faults (a non-numeric axis value) the
`except Exception` handler notifies and backs off 1 time unit — the snapshot
having already been pushed; the loop continues in every case, e.g. three
transport failures followed by one good payload push exactly one snapshot. -/
theorem collect_iteration_amended (C now : Nat) (buf q : List SensorSnapshot) :
    (collect_iteration C now buf q .transportError
        = { buffer := buf, queue := q, sleeps := [2], notices := 1 })
    ∧ (∀ raw, parse_sensor_data now raw = none →
        collect_iteration C now buf q (.ok raw)
          = { buffer := buf, queue := q, sleeps := [1/10], notices := 1 })
    ∧ (∀ raw s, parse_sensor_data now raw = some s → printableSnapshot s = true →
        collect_iteration C now buf q (.ok raw)
          = { buffer := pushBuffer C buf s, queue := q ++ [s],
              sleeps := [1/10], notices := 0 })
    ∧ (∀ raw s, parse_sensor_data now raw = some s → printableSnapshot s = false →
        collect_iteration C now buf q (.ok raw)
          = { buffer := pushBuffer C buf s, queue := q ++ [s],
              sleeps := [1], notices := 1 })
    ∧ (∀ raw s, parse_sensor_data now raw = some s → printableSnapshot s = true →
        collect_run C now buf q
            [.transportError, .transportError, .transportError, .ok raw]
          = { buffer := pushBuffer C buf s, queue := q ++ [s],
              sleeps := [2, 2, 2, 1/10], notices := 3 }) := by
  refine ⟨rfl, fun raw h => ?_, fun raw s h hp => ?_, fun raw s h hp => ?_,
    fun raw s h hp => ?_⟩
  · simp [collect_iteration, h]
  · simp [collect_iteration, h, hp]
  · simp [collect_iteration, h, hp]
  · simp [collect_run, collect_iteration, h, hp]

/-- C7 witness: a transport failure, and three transport failures followed by
the good payload `demoPayload`. -/
theorem collect_iteration_amended_witness :
    collect_iteration 1000 7 [] [] .transportError
        = { buffer := [], queue := [], sleeps := [2], notices := 1 }
    ∧ collect_run 1000 7 [] []
          [.transportError, .transportError, .transportError, .ok demoPayload]
        = { buffer := pushBuffer 1000 [] demoParsedSnap,
            queue := [demoParsedSnap], sleeps := [2, 2, 2, 1/10],
            notices := 3 } := by
  constructor
  · exact (collect_iteration_amended 1000 7 [] []).1
  · have h := (collect_iteration_amended 1000 7 [] []).2.2.2.2 demoPayload
      demoParsedSnap rfl rfl
    simpa using h

theorem export_eq_map (buf : List SensorSnapshot) :
    export_to_dataframe buf = buf.map rowOf := by
  cases buf <;> rfl

/-- C8: the exporter flattens each buffered snapshot into exactly one row
whose keys are the seventeen columns `timestamp, gravity_x, …, gyro_time` in
that order, rows in buffer (oldest-first) order, and the shutdown path
produces a file iff the buffer is nonempty. -/
theorem export_rows_and_columns (buf : List SensorSnapshot) :
    (export_to_dataframe buf).length = buf.length
    ∧ (∀ row ∈ export_to_dataframe buf, row.map Prod.fst = export_columns)
    ∧ (∀ (i : Nat) (h1 : i < (export_to_dataframe buf).length)
        (h2 : i < buf.length),
        (export_to_dataframe buf).get ⟨i, h1⟩ = rowOf (buf.get ⟨i, h2⟩))
    ∧ (exportedFile buf = none ↔ buf = []) := by
  refine ⟨?_, ?_, ?_, ?_⟩
  · rw [export_eq_map, List.length_map]
  · intro row hr
    rw [export_eq_map] at hr
    obtain ⟨s, hmem, rfl⟩ := List.mem_map.mp hr
    rfl
  · intro i h1 h2
    simp [export_eq_map, List.get_eq_getElem, List.getElem_map]
  · cases buf <;> simp [exportedFile, export_to_dataframe]

/-- C8 witness: a one-element buffer and the empty buffer. -/
theorem export_rows_and_columns_witness :
    (export_to_dataframe [demoSnap 0]).length = 1
    ∧ (rowOf (demoSnap 0)).map Prod.fst = export_columns
    ∧ (export_to_dataframe [demoSnap 0]).get
        ⟨0, by rw [export_eq_map]; simp⟩ = rowOf (demoSnap 0)
    ∧ exportedFile ([] : List SensorSnapshot) = none
    ∧ exportedFile [demoSnap 0] ≠ none := by
  have h := export_rows_and_columns [demoSnap 0]
  have h0 := export_rows_and_columns ([] : List SensorSnapshot)
  refine ⟨by simpa using h.1, ?_, ?_, ?_, ?_⟩
  · exact h.2.1 (rowOf (demoSnap 0)) (by rw [export_eq_map]; simp)
  · exact h.2.2.1 0 (by rw [export_eq_map]; simp) (by simp)
  · exact h0.2.2.2.mpr rfl
  · intro hc
    exact (by simp : ¬([demoSnap 0] = [])) (h.2.2.2.mp hc)

/-- C10: the parse operation is total — any internal fault of the parse body
becomes the failure marker `None` rather than a propagated exception — and
an acquisition iteration whose parse result is the failure marker performs
neither the buffer append nor the queue push. -/
theorem parse_total_and_skip_push :
    (∀ (now : Nat) (raw : JValue), parse_body now raw = .error () →
        parse_sensor_data now raw = none)
    ∧ (∀ (C now : Nat) (buf q : List SensorSnapshot) (raw : JValue),
        parse_sensor_data now raw = none →
        (collect_iteration C now buf q (.ok raw)).buffer = buf
        ∧ (collect_iteration C now buf q (.ok raw)).queue = q) := by
  constructor
  · intro now raw h
    simp [parse_sensor_data, h, Except.toOption]
  · intro C now buf q raw h
    constructor <;> simp [collect_iteration, h]

/-- C10 witness: a number payload (not a mapping) faults internally; the
iteration leaves buffer and queue untouched. -/
theorem parse_total_and_skip_push_witness :
    parse_sensor_data 0 (jnum 5) = none
    ∧ (collect_iteration 3 0 [demoSnap 1] [] (.ok (jnum 5))).buffer = [demoSnap 1]
    ∧ (collect_iteration 3 0 [demoSnap 1] [] (.ok (jnum 5))).queue = [] := by
  have h1 := (parse_total_and_skip_push).1 0 (jnum 5) rfl
  have h2 := (parse_total_and_skip_push).2 3 0 [demoSnap 1] [] (jnum 5) h1
  exact ⟨h1, h2.1, h2.2⟩
